import Mathlib

/-!
Shallow embedding of the task-tracker status-propagation engine
(`src/main.py`): entity model (Task / Subtask / Dependency), progress
computation, blocking check, status derivation, the dependent cascade,
and the mutating JSON API handlers, together with theorems checking the
specification's claims against this embedding.
-/

namespace TaskApp

/-- Calendar date used for `start_date` / `end_date` / `started_at` /
`completed_at` fields (Python `datetime.date`). -/
structure PDate where
  year : Nat
  month : Nat
  day : Nat
deriving DecidableEq, Repr

def isLeap (y : Nat) : Bool :=
  (y % 4 == 0 && y % 100 != 0) || (y % 400 == 0)

def daysInMonth (y : Nat) (m : Nat) : Nat :=
  match m with
  | 1 => 31
  | 2 => if isLeap y then 29 else 28
  | 3 => 31
  | 4 => 30
  | 5 => 31
  | 6 => 30
  | 7 => 31
  | 8 => 31
  | 9 => 30
  | 10 => 31
  | 11 => 30
  | 12 => 31
  | _ => 30

def nextDay (d : PDate) : PDate :=
  if d.day < daysInMonth d.year d.month then ⟨d.year, d.month, d.day + 1⟩
  else if d.month < 12 then ⟨d.year, d.month + 1, 1⟩
  else ⟨d.year + 1, 1, 1⟩

/-- `d + timedelta(days := n)` for nonnegative `n` (the only case the
source uses: week offsets and the six-day week span are nonnegative). -/
def addDays (d : PDate) : Nat → PDate
  | 0 => d
  | n + 1 => addDays (nextDay d) n

/-- `DEFAULT_START_DATE = date(2025, 8, 25)` from the source. -/
def DEFAULT_START_DATE : PDate := ⟨2025, 8, 25⟩

/-- Row of the `task` table.  `status` is kept as a string exactly as in
the source (the create handler stores whatever string the caller sent). -/
structure Task where
  id : Nat
  slug : String
  title : String
  description : String
  status : String
  priority : Int
  week : Int
  start_date : Option PDate
  end_date : Option PDate
  started_at : Option PDate
  completed_at : Option PDate
  progress : ℤ
deriving DecidableEq, Repr

/-- Row of the `subtask` table. -/
structure Subtask where
  id : Nat
  task_id : Nat
  title : String
  done : Bool
deriving DecidableEq, Repr

/-- Row of the `dependency` table: `task_id` depends on `depends_on_id`. -/
structure Dependency where
  id : Nat
  task_id : Nat
  depends_on_id : Nat
deriving DecidableEq, Repr

/-- The entity store (the SQLite session): the three tables plus the
autoincrement counters. -/
structure Store where
  tasks : List Task
  subtasks : List Subtask
  deps : List Dependency
  nextTaskId : Nat
  nextSubtaskId : Nat
  nextDepId : Nat
deriving DecidableEq, Repr

def emptyStore : Store := ⟨[], [], [], 1, 1, 1⟩

deriving instance DecidableEq for Except

/-- `Task.query.get(tid)`. -/
def getTask (s : Store) (tid : Nat) : Option Task :=
  s.tasks.find? (fun t => t.id == tid)

/-- Commit the in-session mutation of one task record (replace by id). -/
def setTask (s : Store) (t : Task) : Store :=
  { s with tasks := s.tasks.map (fun x => if x.id == t.id then t else x) }

/-- `t.subtasks` (the subtask rows whose `task_id` is `tid`). -/
def taskSubtasks (s : Store) (tid : Nat) : List Subtask :=
  s.subtasks.filter (fun st => st.task_id == tid)

/-- Python's `round`-half-to-even of the ratio `n / d` (for `d > 0`),
computed in integers (`/` and `%` on ℤ are Euclidean division, which is
floor division for a positive divisor). -/
def roundHalfEvenInt (n d : ℤ) : ℤ :=
  let f := n / d
  let r := n - f * d
  if 2 * r < d then f
  else if d < 2 * r then f + 1
  else if f % 2 = 0 then f else f + 1

/-- `compute_task_progress` from the source, in tenths of a percent:
the float the source stores always carries exactly one decimal digit
(`round(x, 1)`, or the literals `0.0` / `100.0`), so scaling by ten gives
an exact integer representation; `100.0` becomes `1000`, `0.0` becomes
`0`, and `round(100.0 * done / total, 1)` becomes the half-to-even
rounding of `1000 * done / total`. -/
def compute_task_progress (s : Store) (t : Task) : ℤ :=
  let subs := taskSubtasks s t.id
  let total := subs.length
  if total = 0 then (if t.status = "done" then 1000 else 0)
  else
    let done := (subs.filter (fun st => st.done)).length
    roundHalfEvenInt (1000 * (done : ℤ)) (total : ℤ)

/-- `has_blocking_dependencies` from the source. -/
def has_blocking_dependencies (s : Store) (t : Task) : Bool :=
  let deps := s.deps.filter (fun d => d.task_id == t.id)
  if deps.isEmpty then false
  else
    let depTaskIds := deps.map (fun d => d.depends_on_id)
    let q := s.tasks.filter (fun x => depTaskIds.contains x.id)
    q.any (fun x => x.status != "done")

/-- `enforce_blocking_status` from the source (it mutates only the task
record it is handed; here it returns the updated record). -/
def enforce_blocking_status (s : Store) (t : Task) : Task :=
  if t.status ≠ "done" ∧ has_blocking_dependencies s t = true then
    { t with status := "blocked" }
  else if t.status = "blocked" ∧ has_blocking_dependencies s t = false then
    { t with status := if t.progress > 0 then "in_progress" else "todo" }
  else t

/-- Body of the loop in `update_dependents_status`: recompute one
dependent's progress, then re-derive its status. -/
def cascade_task (s : Store) (dt : Task) : Task :=
  let dt1 := { dt with progress := compute_task_progress s dt }
  if has_blocking_dependencies s dt1 = true then
    if dt1.status ≠ "done" then { dt1 with status := "blocked" } else dt1
  else
    if dt1.status = "blocked" then
      if dt1.progress = 1000 then { dt1 with status := "done" }
      else if dt1.progress > 0 then { dt1 with status := "in_progress" }
      else { dt1 with status := "todo" }
    else dt1

/-- One iteration of the `update_dependents_status` loop over the store. -/
def cascadeStep (s : Store) (dep : Dependency) : Store :=
  match s.tasks.find? (fun t => t.id == dep.task_id) with
  | none => s
  | some dt => setTask s (cascade_task s dt)

/-- `update_dependents_status` from the source: single-level cascade over
the direct dependents of `changed_task_id`. -/
def update_dependents_status (s : Store) (changed_task_id : Nat) : Store :=
  let deps := s.deps.filter (fun d => d.depends_on_id == changed_task_id)
  deps.foldl cascadeStep s

/-- `set_dates_for_week` from the source (`if t.week and t.week > 0`). -/
def set_dates_for_week (t : Task) (start_date : PDate) : Task :=
  if 0 < t.week then
    let offset := (t.week - 1) * 7
    let sd := addDays start_date offset.toNat
    { t with start_date := some sd, end_date := some (addDays sd 6) }
  else t

def isSpace (c : Char) : Bool := c == ' ' || c == '\t' || c == '\n' || c == '\r'

/-- Python's `str.strip()` (ASCII whitespace). -/
def pyStrip (s : String) : String :=
  String.mk (((s.toList.dropWhile isSpace).reverse.dropWhile isSpace).reverse)

/-- ASCII lowercasing of one character (Python `str.lower()`). -/
def charLower (c : Char) : Char :=
  if 'A' ≤ c ∧ c ≤ 'Z' then Char.ofNat (c.toNat + 32) else c

/-- `slugify` from the source: lowercase, collapse runs of
non-alphanumerics to `-`, strip `-`, default `task`. -/
def slugify (s : String) : String :=
  let mapped := (s.toList.map charLower).map
    (fun c => if c.isLower ∨ c.isDigit then c else '-')
  let collapsed := mapped.foldr
    (fun c acc => if c = '-' ∧ acc.head? = some '-' then acc else c :: acc) []
  let stripped :=
    ((collapsed.dropWhile (fun c => c == '-')).reverse.dropWhile
      (fun c => c == '-')).reverse
  let r := String.mk stripped
  if r = "" then "task" else r

/-- The error kinds an API handler can surface (section 7 of the spec):
`validation` = HTTP 400 on a bad field, `notFound` = HTTP 404,
`blockedOperation` = HTTP 400 on an operation forbidden by unmet
dependencies, `serverError` = an unhandled Python exception (the
`AttributeError` raised by `enforce_blocking_status(None)`). -/
inductive ApiError where
  | validation (msg : String)
  | notFound
  | blockedOperation (msg : String)
  | serverError
deriving DecidableEq, Repr

/-- `x if x is not None else today` for the `if not t.field:` idiom. -/
def orToday (d : Option PDate) (today : PDate) : Option PDate :=
  match d with
  | none => some today
  | some x => some x

/-- The common tail `t.progress = compute_task_progress(t);
enforce_blocking_status(t); db.session.commit()` of several handlers. -/
def recompute_and_enforce (s : Store) (t : Task) : Store × Task :=
  let t1 : Task := { t with progress := compute_task_progress s t }
  let s1 := setTask s t1
  let t2 := enforce_blocking_status s1 t1
  (setTask s1 t2, t2)

/-- `POST /api/tasks` (task creation).  An empty `status` argument stands
for an absent/falsy JSON field (`data.get("status") or "todo"`). -/
def api_create_task (s : Store) (title description status : String)
    (priority week : Int) : Store × Except ApiError Task :=
  let title := pyStrip title
  if title = "" then (s, .error (.validation "title is required"))
  else
    let t : Task :=
      { id := s.nextTaskId, slug := slugify title, title := title,
        description := pyStrip description,
        status := if status = "" then "todo" else status,
        priority := priority, week := week,
        start_date := none, end_date := none,
        started_at := none, completed_at := none, progress := 0 }
    let t := set_dates_for_week t DEFAULT_START_DATE
    let s1 : Store := { s with tasks := s.tasks ++ [t], nextTaskId := s.nextTaskId + 1 }
    let r := recompute_and_enforce s1 t
    (r.1, .ok r.2)

/-- `POST /api/tasks/<id>/status` (explicit status transition). -/
def api_update_task_status (s : Store) (task_id : Nat) (new_status : String)
    (today : PDate) : Store × Except ApiError Task :=
  match getTask s task_id with
  | none => (s, .error .notFound)
  | some t =>
    if new_status ≠ "todo" ∧ new_status ≠ "in_progress" ∧ new_status ≠ "done" then
      (s, .error (.validation "invalid status"))
    else if new_status = "done" then
      if has_blocking_dependencies s t = true then
        (s, .error (.blockedOperation "Task has incomplete dependencies"))
      else
        let subs1 : List Subtask := s.subtasks.map
          (fun st => if st.task_id == t.id then { st with done := true } else st)
        let s1 : Store := { s with subtasks := subs1 }
        let t1 : Task := { t with
                    status := "done",
                    completed_at := orToday t.completed_at today,
                    started_at := orToday t.started_at today }
        let s2 := setTask s1 t1
        let r := recompute_and_enforce s2 t1
        (update_dependents_status r.1 t1.id, .ok r.2)
    else if new_status = "todo" then
      let subs1 : List Subtask := s.subtasks.map
        (fun st => if st.task_id == t.id then { st with done := false } else st)
      let s1 : Store := { s with subtasks := subs1 }
      let t1 : Task := { t with status := "todo", completed_at := none }
      let s2 := setTask s1 t1
      let r := recompute_and_enforce s2 t1
      (update_dependents_status r.1 t1.id, .ok r.2)
    else
      let t1 : Task := { t with
                  status := "in_progress",
                  started_at := orToday t.started_at today }
      let s1 := setTask s t1
      let r := recompute_and_enforce s1 t1
      (update_dependents_status r.1 t1.id, .ok r.2)

/-- `POST /api/tasks/<id>/edit` (partial update).  `none` arguments stand
for keys absent from the JSON body. -/
def api_edit_task (s : Store) (task_id : Nat) (title? description? : Option String)
    (priority? week? : Option Int) : Store × Except ApiError Task :=
  match getTask s task_id with
  | none => (s, .error .notFound)
  | some t =>
    let t := match title? with
      | some ti => { t with title := pyStrip ti, slug := slugify (pyStrip ti) }
      | none => t
    let t := match description? with
      | some de => { t with description := pyStrip de }
      | none => t
    let t := match priority? with
      | some p => { t with priority := p }
      | none => t
    let t := match week? with
      | some w => set_dates_for_week { t with week := w } DEFAULT_START_DATE
      | none => t
    let s1 := setTask s t
    let r := recompute_and_enforce s1 t
    (r.1, .ok r.2)

/-- Body of the recompute loop in the task-delete handler: refresh one
former dependent's progress and re-derive its status. -/
def recomputeStep (acc : Store) (did : Nat) : Store :=
  match getTask acc did with
  | none => acc
  | some dt =>
    let dt1 : Task := { dt with progress := compute_task_progress acc dt }
    let dt2 := enforce_blocking_status (setTask acc dt1) dt1
    setTask acc dt2

/-- `POST /api/tasks/<id>/delete`. -/
def api_delete_task (s : Store) (task_id : Nat) : Store × Except ApiError Unit :=
  match getTask s task_id with
  | none => (s, .error .notFound)
  | some _ =>
    let depsIn := s.deps.filter (fun d => d.depends_on_id == task_id)
    let depTaskIds := depsIn.map (fun d => d.task_id)
    let s1 : Store :=
      { s with
        deps := (s.deps.filter (fun d => d.depends_on_id != task_id)).filter
          (fun d => d.task_id != task_id),
        subtasks := s.subtasks.filter (fun st => st.task_id != task_id),
        tasks := s.tasks.filter (fun x => x.id != task_id) }
    let s2 := depTaskIds.foldl recomputeStep s1
    (s2, .ok ())

/-- `POST /api/subtasks` (subtask creation).  `task_id = 0` stands for a
missing/falsy `task_id` field. -/
def api_create_subtask (s : Store) (task_id : Nat) (title : String)
    (today : PDate) : Store × Except ApiError Subtask :=
  let title := pyStrip title
  if task_id = 0 ∨ title = "" then
    (s, .error (.validation "task_id and title are required"))
  else
    match getTask s task_id with
    | none => (s, .error .notFound)
    | some t =>
      let st : Subtask :=
        { id := s.nextSubtaskId, task_id := t.id, title := title, done := false }
      let s1 : Store := { s with
                          subtasks := s.subtasks ++ [st],
                          nextSubtaskId := s.nextSubtaskId + 1 }
      let t1 : Task := { t with progress := compute_task_progress s1 t }
      let t2 : Task := if t1.status = "done" ∧ t1.progress < 1000 then
          { t1 with status := "in_progress", completed_at := none }
        else t1
      let t3 : Task := if t2.progress > 0 ∧ t2.started_at = none then
          { t2 with started_at := some today }
        else t2
      let t4 := enforce_blocking_status (setTask s1 t3) t3
      (setTask s1 t4, .ok st)

/-- `POST /api/subtasks/<id>/toggle`. -/
def api_toggle_subtask (s : Store) (subtask_id : Nat)
    (today : PDate) : Store × Except ApiError Subtask :=
  match s.subtasks.find? (fun st => st.id == subtask_id) with
  | none => (s, .error .notFound)
  | some st =>
    match getTask s st.task_id with
    | none => (s, .error .notFound)
    | some t =>
      if has_blocking_dependencies s t = true then
        (s, .error (.blockedOperation
          "Task is blocked by dependencies; cannot toggle subtasks"))
      else
        let st1 : Subtask := { st with done := !st.done }
        let subs1 : List Subtask := s.subtasks.map
          (fun x => if x.id == subtask_id then st1 else x)
        let s1 : Store := { s with subtasks := subs1 }
        let t1 : Task := { t with progress := compute_task_progress s1 t }
        let t2 : Task :=
          if t1.progress = 1000 ∧ has_blocking_dependencies s1 t1 = false then
            { t1 with
              status := "done",
              completed_at := orToday t1.completed_at today,
              started_at := orToday t1.started_at today }
          else if t1.progress > 0 ∧ t1.status ≠ "done" then
            { t1 with
              status := "in_progress",
              started_at := orToday t1.started_at today,
              completed_at := none }
          else if has_blocking_dependencies s1 t1 = false then
            { t1 with status := "todo", completed_at := none }
          else t1
        let t3 := enforce_blocking_status (setTask s1 t2) t2
        let s2 := setTask s1 t3
        (update_dependents_status s2 t.id, .ok st1)

/-- `POST /api/subtasks/<id>/delete`. -/
def api_delete_subtask (s : Store) (subtask_id : Nat)
    (today : PDate) : Store × Except ApiError (Option Task) :=
  match s.subtasks.find? (fun st => st.id == subtask_id) with
  | none => (s, .error .notFound)
  | some st =>
    match getTask s st.task_id with
    | some t =>
      if has_blocking_dependencies s t = true then
        (s, .error (.blockedOperation
          "Task is blocked by dependencies; cannot delete subtask"))
      else
        let subs1 : List Subtask := s.subtasks.filter (fun x => x.id != subtask_id)
        let s1 : Store := { s with subtasks := subs1 }
        let t1 : Task := { t with progress := compute_task_progress s1 t }
        let t2 : Task :=
          if t1.progress = 1000 ∧ has_blocking_dependencies s1 t1 = false then
            { t1 with
              status := "done",
              completed_at := orToday t1.completed_at today }
          else
            let ta := if t1.status = "done" ∧ t1.progress < 1000 then
                { t1 with
                  status := if t1.progress > 0 then "in_progress" else "todo",
                  completed_at := none }
              else t1
            if ta.progress > 0 ∧ ta.started_at = none then
              { ta with started_at := some today }
            else ta
        let t3 := enforce_blocking_status (setTask s1 t2) t2
        (setTask s1 t3, .ok (some t3))
    | none =>
      let subs1 : List Subtask := s.subtasks.filter (fun x => x.id != subtask_id)
      ({ s with subtasks := subs1 }, .ok none)

/-- `POST /api/dependencies` (add a dependency edge).  `0` stands for a
missing/falsy id field.  NOTE: faithful to the source, the new edge is
committed BEFORE `get_or_404(task_id)` runs. -/
def api_add_dependency (s : Store) (task_id depends_on_id : Nat) :
    Store × Except ApiError Dependency :=
  if task_id = 0 ∨ depends_on_id = 0 ∨ task_id = depends_on_id then
    (s, .error (.validation "invalid dependency"))
  else
    match s.deps.find? (fun d => d.task_id == task_id &&
        d.depends_on_id == depends_on_id) with
    | some e => (s, .ok e)
    | none =>
      let dep : Dependency :=
        { id := s.nextDepId, task_id := task_id, depends_on_id := depends_on_id }
      let s1 : Store := { s with deps := s.deps ++ [dep], nextDepId := s.nextDepId + 1 }
      match getTask s1 task_id with
      | none => (s1, .error .notFound)
      | some t =>
        let t1 := enforce_blocking_status s1 t
        (setTask s1 t1, .ok dep)

/-- `POST /api/dependencies/<id>/delete`.  When the edge's `task_id` side
matches no task, the source calls `enforce_blocking_status(None)` and
crashes with an `AttributeError` after the delete was committed. -/
def api_delete_dependency (s : Store) (dep_id : Nat) :
    Store × Except ApiError Unit :=
  match s.deps.find? (fun d => d.id == dep_id) with
  | none => (s, .error .notFound)
  | some dep =>
    let s1 : Store := { s with deps := s.deps.filter (fun d => d.id != dep_id) }
    match getTask s1 dep.task_id with
    | none => (s1, .error .serverError)
    | some t =>
      let t1 := enforce_blocking_status s1 t
      (setTask s1 t1, .ok ())

/-- One public mutation request (the JSON API surface of the source). -/
inductive Op where
  | createTask (title description status : String) (priority week : Int)
  | updateStatus (task_id : Nat) (new_status : String) (today : PDate)
  | editTask (task_id : Nat) (title? description? : Option String)
      (priority? week? : Option Int)
  | deleteTask (task_id : Nat)
  | createSubtask (task_id : Nat) (title : String) (today : PDate)
  | toggleSubtask (subtask_id : Nat) (today : PDate)
  | deleteSubtask (subtask_id : Nat) (today : PDate)
  | addDependency (task_id depends_on_id : Nat)
  | deleteDependency (dep_id : Nat)
deriving DecidableEq, Repr

/-- Apply one mutation request to the store (the response is dropped). -/
def applyOp (s : Store) : Op → Store
  | .createTask ti de st p w => (api_create_task s ti de st p w).1
  | .updateStatus tid ns td => (api_update_task_status s tid ns td).1
  | .editTask tid ti de p w => (api_edit_task s tid ti de p w).1
  | .deleteTask tid => (api_delete_task s tid).1
  | .createSubtask tid ti td => (api_create_subtask s tid ti td).1
  | .toggleSubtask sid td => (api_toggle_subtask s sid td).1
  | .deleteSubtask sid td => (api_delete_subtask s sid td).1
  | .addDependency tid did => (api_add_dependency s tid did).1
  | .deleteDependency did => (api_delete_dependency s did).1

def runOps (s : Store) (ops : List Op) : Store := ops.foldl applyOp s

/-- A store state is reachable when some sequence of public mutation
requests produces it from the empty store. -/
def reachable (s : Store) : Prop := ∃ ops : List Op, runOps emptyStore ops = s

/-! ### Spec-side definitions and claim theorems -/

/-- Modelled on the spec's words: `⌊q⌋` plus the round-half-to-even tie
rule, over the rationals. -/
def roundHalfEvenQ (q : ℚ) : ℤ :=
  let f := ⌊q⌋
  let r := q - (f : ℚ)
  if r < 1 / 2 then f
  else if 1 / 2 < r then f + 1
  else if f % 2 = 0 then f else f + 1

/-- Modelled on the spec's words: `round(q, 1)` — round to the nearest
tenth, ties to even — over the rationals. -/
def roundTenth (q : ℚ) : ℚ := (roundHalfEvenQ (10 * q) : ℚ) / 10

/-- The Progress Calculator contract exactly as the spec words it
(section 4.1 / section 8): `100.0` or `0.0` for a task without subtasks,
otherwise `round(100.0 * done_count / total_count, 1)`. -/
def progress_spec (total done_count : Nat) (status : String) : ℚ :=
  if total = 0 then (if status = "done" then 100 else 0)
  else roundTenth ((100 : ℚ) * (done_count : ℚ) / (total : ℚ))

/-- Bridge between the integer tenths-of-a-percent computation of the
embedding and the rational `round(·, 1)` of the spec. -/
lemma roundHalfEvenQ_natCast_div (n d : ℕ) (hd : 0 < d) :
    roundHalfEvenQ ((n : ℚ) / (d : ℚ)) = roundHalfEvenInt (n : ℤ) (d : ℤ) := by
  have hd0 : (0 : ℚ) < (d : ℚ) := by exact_mod_cast hd
  have hf : ⌊(n : ℚ) / (d : ℚ)⌋ = (n : ℤ) / (d : ℤ) := by
    have h0 := Rat.floor_intCast_div_natCast (n : ℤ) d
    simpa using h0
  have key : (n : ℚ) / (d : ℚ) - (((n : ℤ) / (d : ℤ) : ℤ) : ℚ)
      = (((n : ℤ) - ((n : ℤ) / (d : ℤ)) * (d : ℤ) : ℤ) : ℚ) / (d : ℚ) := by
    push_cast
    field_simp
    ring
  have h1 : ((n : ℚ) / (d : ℚ) - (((n : ℤ) / (d : ℤ) : ℤ) : ℚ) < 1 / 2)
      ↔ (2 * ((n : ℤ) - ((n : ℤ) / (d : ℤ)) * (d : ℤ)) < (d : ℤ)) := by
    rw [key, div_lt_div_iff₀ hd0 (by norm_num : (0 : ℚ) < 2)]
    constructor
    · intro h
      push_cast at h
      have h9 : ((2 * ((n : ℤ) - ((n : ℤ) / (d : ℤ)) * (d : ℤ)) : ℤ) : ℚ) < ((d : ℤ) : ℚ) := by
        push_cast
        linarith
      exact_mod_cast h9
    · intro h
      have h9 : ((2 * ((n : ℤ) - ((n : ℤ) / (d : ℤ)) * (d : ℤ)) : ℤ) : ℚ) < ((d : ℤ) : ℚ) := by
        exact_mod_cast h
      push_cast at h9 ⊢
      linarith
  have h2 : (1 / 2 < (n : ℚ) / (d : ℚ) - (((n : ℤ) / (d : ℤ) : ℤ) : ℚ))
      ↔ ((d : ℤ) < 2 * ((n : ℤ) - ((n : ℤ) / (d : ℤ)) * (d : ℤ))) := by
    rw [key, div_lt_div_iff₀ (by norm_num : (0 : ℚ) < 2) hd0]
    constructor
    · intro h
      push_cast at h
      have h9 : ((d : ℤ) : ℚ) < ((2 * ((n : ℤ) - ((n : ℤ) / (d : ℤ)) * (d : ℤ)) : ℤ) : ℚ) := by
        push_cast
        linarith
      exact_mod_cast h9
    · intro h
      have h9 : ((d : ℤ) : ℚ) < ((2 * ((n : ℤ) - ((n : ℤ) / (d : ℤ)) * (d : ℤ)) : ℤ) : ℚ) := by
        exact_mod_cast h
      push_cast at h9 ⊢
      linarith
  simp only [roundHalfEvenQ, roundHalfEvenInt, hf, h1, h2]


/-- C4: for every task, the Progress Calculator returns
`round(100 * done_count / N, 1)` when the task has `N > 0` subtasks of
which `done_count` are done, and with zero subtasks it returns `100.0`
if the task's status is done and `0.0` otherwise.  (The embedding stores
progress in tenths of a percent, so its value divided by ten equals the
spec's percentage.) -/
theorem C4_progress_formula (s : Store) (t : Task) :
    ((compute_task_progress s t : ℤ) : ℚ) / 10
      = progress_spec (taskSubtasks s t.id).length
          ((taskSubtasks s t.id).filter (fun st => st.done)).length t.status := by
  have hsplit : compute_task_progress s t
      = if (taskSubtasks s t.id).length = 0 then
          (if t.status = "done" then 1000 else 0)
        else
          roundHalfEvenInt
            (1000 * (((taskSubtasks s t.id).filter (fun st => st.done)).length : ℤ))
            ((taskSubtasks s t.id).length : ℤ) := rfl
  rw [hsplit]
  simp only [progress_spec]
  by_cases h : (taskSubtasks s t.id).length = 0
  · rw [if_pos h, if_pos h]
    by_cases h2 : t.status = "done"
    · rw [if_pos h2, if_pos h2]
      norm_num
    · rw [if_neg h2, if_neg h2]
      norm_num
  · rw [if_neg h, if_neg h]
    simp only [roundTenth]
    have harg : (10 : ℚ) * ((100 : ℚ)
          * (((taskSubtasks s t.id).filter (fun st => st.done)).length : ℚ)
          / ((taskSubtasks s t.id).length : ℚ))
        = ((1000 * ((taskSubtasks s t.id).filter (fun st => st.done)).length : ℕ) : ℚ)
          / ((taskSubtasks s t.id).length : ℚ) := by
      push_cast
      ring
    rw [harg, roundHalfEvenQ_natCast_div _ _ (Nat.pos_of_ne_zero h)]
    norm_cast

/-- C7: for every task with week `w`, the week-to-date mapping sets
`start_date = plan_start + 7*(w-1)` days and `end_date = start_date + 6`
days when `w > 0`, and leaves the task untouched when `w ≤ 0`; in
particular week 3 with plan start 2025-08-25 yields start 2025-09-08 and
end 2025-09-14. -/
theorem C7_week_dates :
    (∀ (t : Task) (sd : PDate), 0 < t.week →
      (set_dates_for_week t sd).start_date
          = some (addDays sd ((t.week - 1) * 7).toNat) ∧
        (set_dates_for_week t sd).end_date
          = some (addDays (addDays sd ((t.week - 1) * 7).toNat) 6)) ∧
    (∀ (t : Task) (sd : PDate), t.week ≤ 0 → set_dates_for_week t sd = t) ∧
    (∀ t : Task, t.week = 3 →
      (set_dates_for_week t ⟨2025, 8, 25⟩).start_date = some ⟨2025, 9, 8⟩ ∧
        (set_dates_for_week t ⟨2025, 8, 25⟩).end_date = some ⟨2025, 9, 14⟩) := by
  refine ⟨?_, ?_, ?_⟩
  · intro t sd hw
    unfold set_dates_for_week
    rw [if_pos hw]
    exact ⟨rfl, rfl⟩
  · intro t sd hw
    unfold set_dates_for_week
    rw [if_neg (by omega : ¬ 0 < t.week)]
  · intro t hw
    unfold set_dates_for_week
    rw [if_pos (by rw [hw]; norm_num : 0 < t.week), hw]
    refine ⟨?_, ?_⟩
    · show some (addDays ⟨2025, 8, 25⟩ (((3 : ℤ) - 1) * 7).toNat) = some ⟨2025, 9, 8⟩
      decide
    · show some (addDays (addDays ⟨2025, 8, 25⟩ (((3 : ℤ) - 1) * 7).toNat) 6)
          = some ⟨2025, 9, 14⟩
      decide

def w7task : Task := ⟨1, "t", "T", "", "todo", 2, 3, none, none, none, none, 0⟩

theorem C7_week_dates_witness :
    (set_dates_for_week w7task ⟨2025, 8, 25⟩).start_date = some ⟨2025, 9, 8⟩ ∧
      (set_dates_for_week w7task ⟨2025, 8, 25⟩).end_date = some ⟨2025, 9, 14⟩ :=
  C7_week_dates.2.2 w7task rfl

/-- C9: for every task all of whose dependency edges point at
`depends_on_id` values matching no existing task, the Dependency Checker
reports not blocking — dangling edges are ignored. -/
theorem C9_dangling_not_blocking (s : Store) (t : Task)
    (h : ∀ d ∈ s.deps, d.task_id = t.id → ∀ u ∈ s.tasks, u.id ≠ d.depends_on_id) :
    has_blocking_dependencies s t = false := by
  unfold has_blocking_dependencies
  by_cases he : (s.deps.filter (fun d => d.task_id == t.id)).isEmpty
  · simp only [he, if_pos]
  · simp only [he]
    rw [if_neg (by simp [he])]
    rw [List.any_eq_false]
    intro x hx
    have hx2 := List.mem_filter.mp hx
    have hcont : x.id ∈ (s.deps.filter (fun d => d.task_id == t.id)).map
        (fun d => d.depends_on_id) := by
      have := hx2.2
      simpa using this
    obtain ⟨d, hdf, hdeq⟩ := List.mem_map.mp hcont
    have hd2 := List.mem_filter.mp hdf
    have htid : d.task_id = t.id := by
      have := hd2.2
      simpa using this
    exact absurd hdeq.symm (h d hd2.1 htid x hx2.1)

def w9store : Store :=
  ⟨[⟨1, "a", "A", "", "todo", 2, 0, none, none, none, none, 0⟩],
   [], [⟨1, 1, 99⟩, ⟨2, 1, 42⟩], 2, 1, 3⟩

theorem C9_dangling_not_blocking_witness :
    has_blocking_dependencies w9store
      ⟨1, "a", "A", "", "todo", 2, 0, none, none, none, none, 0⟩ = false :=
  C9_dangling_not_blocking w9store _ (by decide)

/-- A dependency edge of `t` whose target exists and is not done makes
the Dependency Checker report blocking. -/
lemma has_blocking_dependencies_of_witness (s : Store) (t : Task)
    (d : Dependency) (u : Task) (hd : d ∈ s.deps) (hdt : d.task_id = t.id)
    (hu : u ∈ s.tasks) (huid : u.id = d.depends_on_id)
    (hund : u.status ≠ "done") :
    has_blocking_dependencies s t = true := by
  unfold has_blocking_dependencies
  have hdf : d ∈ s.deps.filter (fun x => x.task_id == t.id) :=
    List.mem_filter.mpr ⟨hd, by simp [hdt]⟩
  have hne : ¬ ((s.deps.filter (fun x => x.task_id == t.id)).isEmpty = true) := by
    intro hc
    rw [List.isEmpty_iff] at hc
    rw [hc] at hdf
    exact List.not_mem_nil d hdf
  rw [if_neg hne, List.any_eq_true]
  refine ⟨u, List.mem_filter.mpr ⟨hu, ?_⟩, by simp [hund]⟩
  have : u.id ∈ (s.deps.filter (fun x => x.task_id == t.id)).map
      (fun x => x.depends_on_id) :=
    List.mem_map.mpr ⟨d, hdf, huid.symm⟩
  simpa using this

/-- C2: for every task `t` with a dependency edge whose target task is
not done, requesting the explicit transition of `t` to `done` fails with
the BlockedOperation error and returns the store unchanged (so `t`'s
status, progress, timestamps and subtasks are all untouched). -/
theorem C2_blocked_done_rejected (s : Store) (tid : Nat) (today : PDate)
    (t : Task) (hfind : getTask s tid = some t)
    (d : Dependency) (hd : d ∈ s.deps) (hdt : d.task_id = t.id)
    (u : Task) (hu : u ∈ s.tasks) (huid : u.id = d.depends_on_id)
    (hund : u.status ≠ "done") :
    api_update_task_status s tid "done" today
      = (s, .error (.blockedOperation "Task has incomplete dependencies")) := by
  have hb := has_blocking_dependencies_of_witness s t d u hd hdt hu huid hund
  unfold api_update_task_status
  rw [hfind]
  simp [hb]

def w2store : Store :=
  ⟨[⟨1, "a", "A", "", "todo", 2, 0, none, none, none, none, 0⟩,
    ⟨2, "b", "B", "", "todo", 2, 0, none, none, none, none, 0⟩],
   [], [⟨1, 1, 2⟩], 3, 1, 2⟩

theorem C2_blocked_done_rejected_witness :
    api_update_task_status w2store 1 "done" ⟨2025, 8, 25⟩
      = (w2store, .error (.blockedOperation "Task has incomplete dependencies")) :=
  C2_blocked_done_rejected w2store 1 ⟨2025, 8, 25⟩
    ⟨1, "a", "A", "", "todo", 2, 0, none, none, none, none, 0⟩ (by decide)
    ⟨1, 1, 2⟩ (by decide) rfl
    ⟨2, "b", "B", "", "todo", 2, 0, none, none, none, none, 0⟩ (by decide) rfl
    (by decide)

/-- The blocking check reads only the task's id (and the rest of the
store), so tasks with equal ids get equal answers. -/
lemma has_blocking_dependencies_congr (s : Store) (a b : Task)
    (h : a.id = b.id) :
    has_blocking_dependencies s a = has_blocking_dependencies s b := by
  unfold has_blocking_dependencies
  rw [h]

/-- C10: when the cascade promotes a formerly blocked dependent whose
recomputed progress is 100.0 (1000 tenths) to done, it changes only that
dependent's status and progress: the resulting record keeps the
dependent's `started_at` and `completed_at` (and every other field)
unchanged, so a task can hold status done with both timestamps null. -/
theorem C10_cascade_keeps_timestamps (s : Store) (cid : Nat)
    (d : Dependency) (u : Task)
    (hd : s.deps.filter (fun x => x.depends_on_id == cid) = [d])
    (hf : s.tasks.find? (fun x => x.id == d.task_id) = some u)
    (hst : u.status = "blocked")
    (hp : compute_task_progress s u = 1000)
    (hnb : has_blocking_dependencies s u = false) :
    update_dependents_status s cid
      = setTask s { u with progress := 1000, status := "done" } := by
  unfold update_dependents_status
  rw [hd]
  simp only [List.foldl_cons, List.foldl_nil]
  unfold cascadeStep
  rw [hf]
  unfold cascade_task
  simp only [hp]
  rw [has_blocking_dependencies_congr s { u with progress := 1000 } u rfl, hnb]
  simp [hst]

def w10u : Task := ⟨2, "u", "U", "", "blocked", 2, 0, none, none, none, none, 0⟩

def w10store : Store :=
  ⟨[⟨1, "c", "C", "", "done", 2, 0, none, none, none, none, 1000⟩, w10u],
   [⟨1, 2, "x", true⟩], [⟨1, 2, 1⟩], 3, 2, 2⟩

def w10done : Task := ⟨2, "u", "U", "", "done", 2, 0, none, none, none, none, 1000⟩

theorem C10_cascade_keeps_timestamps_witness :
    update_dependents_status w10store 1 = setTask w10store w10done ∧
      w10done.status = "done" ∧ w10done.started_at = none ∧
      w10done.completed_at = none :=
  ⟨C10_cascade_keeps_timestamps w10store 1 ⟨1, 2, 1⟩ w10u rfl rfl rfl
    (by decide) (by decide), rfl, rfl, rfl⟩

lemma cascade_task_id (s : Store) (dt : Task) : (cascade_task s dt).id = dt.id := by
  simp only [cascade_task]
  split_ifs <;> rfl

lemma cascadeStep_deps (acc : Store) (dep : Dependency) :
    (cascadeStep acc dep).deps = acc.deps := by
  unfold cascadeStep
  split <;> rfl

lemma cascadeStep_subtasks (acc : Store) (dep : Dependency) :
    (cascadeStep acc dep).subtasks = acc.subtasks := by
  unfold cascadeStep
  split <;> rfl

lemma cascadeStep_tasks_length (acc : Store) (dep : Dependency) :
    (cascadeStep acc dep).tasks.length = acc.tasks.length := by
  unfold cascadeStep
  split
  · rfl
  · unfold setTask
    simp

/-- A task whose id is not the `task_id` of the processed edge passes
through one cascade iteration unchanged. -/
lemma cascadeStep_mem (acc : Store) (dep : Dependency) (u : Task)
    (hu : u ∈ acc.tasks) (hne : dep.task_id ≠ u.id) :
    u ∈ (cascadeStep acc dep).tasks := by
  unfold cascadeStep
  cases hfind : acc.tasks.find? (fun t => t.id == dep.task_id) with
  | none => exact hu
  | some dt =>
    have hdt : dt.id = dep.task_id := by
      have := List.find?_some hfind
      simpa using this
    unfold setTask
    have hne2 : ¬ ((u.id == (cascade_task acc dt).id) = true) := by
      rw [cascade_task_id, hdt]
      simp only [beq_iff_eq]
      omega
    have h3 := List.mem_map_of_mem
      (fun x => if x.id == (cascade_task acc dt).id then cascade_task acc dt else x) hu
    simp only [hne2, if_false] at h3
    exact h3

lemma foldl_cascadeStep_deps (L : List Dependency) :
    ∀ s : Store, (L.foldl cascadeStep s).deps = s.deps := by
  induction L with
  | nil => intro s; rfl
  | cons d L ih =>
    intro s
    simp only [List.foldl_cons]
    rw [ih, cascadeStep_deps]

lemma foldl_cascadeStep_subtasks (L : List Dependency) :
    ∀ s : Store, (L.foldl cascadeStep s).subtasks = s.subtasks := by
  induction L with
  | nil => intro s; rfl
  | cons d L ih =>
    intro s
    simp only [List.foldl_cons]
    rw [ih, cascadeStep_subtasks]

lemma foldl_cascadeStep_tasks_length (L : List Dependency) :
    ∀ s : Store, (L.foldl cascadeStep s).tasks.length = s.tasks.length := by
  induction L with
  | nil => intro s; rfl
  | cons d L ih =>
    intro s
    simp only [List.foldl_cons]
    rw [ih, cascadeStep_tasks_length]

lemma foldl_cascadeStep_mem (L : List Dependency) :
    ∀ (s : Store) (u : Task), u ∈ s.tasks → (∀ d ∈ L, d.task_id ≠ u.id) →
      u ∈ (L.foldl cascadeStep s).tasks := by
  induction L with
  | nil => intro s u hu _; exact hu
  | cons d L ih =>
    intro s u hu hL
    simp only [List.foldl_cons]
    exact ih _ u (cascadeStep_mem s d u hu (hL d (List.mem_cons_self d L)))
      (fun x hx => hL x (List.mem_cons_of_mem d hx))

/-- The cascade never removes, adds, or rewrites the subtask and
dependency tables. -/
lemma update_dependents_status_deps (s : Store) (cid : Nat) :
    (update_dependents_status s cid).deps = s.deps :=
  foldl_cascadeStep_deps _ s

lemma update_dependents_status_subtasks (s : Store) (cid : Nat) :
    (update_dependents_status s cid).subtasks = s.subtasks :=
  foldl_cascadeStep_subtasks _ s

lemma update_dependents_status_tasks_length (s : Store) (cid : Nat) :
    (update_dependents_status s cid).tasks.length = s.tasks.length :=
  foldl_cascadeStep_tasks_length _ s

/-- C5: the cascade rooted at a changed task id touches only tasks with
a dependency edge pointing directly at the changed task.  Every task
record `u` (status, progress, timestamps and all) with no such direct
edge — transitive dependents included — survives the call unchanged, and
the subtask/dependency tables and task count are untouched. -/
theorem C5_cascade_single_level_frame (s : Store) (cid : Nat) (u : Task)
    (hu : u ∈ s.tasks)
    (hnd : ∀ d ∈ s.deps, d.depends_on_id = cid → d.task_id ≠ u.id) :
    u ∈ (update_dependents_status s cid).tasks ∧
      (update_dependents_status s cid).tasks.length = s.tasks.length ∧
      (update_dependents_status s cid).subtasks = s.subtasks ∧
      (update_dependents_status s cid).deps = s.deps := by
  refine ⟨?_, update_dependents_status_tasks_length s cid,
    update_dependents_status_subtasks s cid, update_dependents_status_deps s cid⟩
  unfold update_dependents_status
  apply foldl_cascadeStep_mem _ _ _ hu
  intro d hdf
  have h2 := List.mem_filter.mp hdf
  exact hnd d h2.1 (by simpa using h2.2)

def w5u : Task := ⟨3, "a", "A", "", "blocked", 2, 0, none, none, none, none, 0⟩

/-- A depends on B, B depends on C (id 1): cascading from C must not
touch A. -/
def w5store : Store :=
  ⟨[⟨1, "c", "C", "", "done", 2, 0, none, none, none, none, 1000⟩,
    ⟨2, "b", "B", "", "blocked", 2, 0, none, none, none, none, 0⟩, w5u],
   [], [⟨1, 2, 1⟩, ⟨2, 3, 2⟩], 4, 1, 3⟩

theorem C5_cascade_single_level_frame_witness :
    w5u ∈ (update_dependents_status w5store 1).tasks ∧
      (update_dependents_status w5store 1).tasks.length = w5store.tasks.length ∧
      (update_dependents_status w5store 1).subtasks = w5store.subtasks ∧
      (update_dependents_status w5store 1).deps = w5store.deps :=
  C5_cascade_single_level_frame w5store 1 w5u (by decide) (by decide)

/-- The blocking check never reads the subtask table. -/
lemma has_blocking_dependencies_subtasks_irrel (s : Store) (subs : List Subtask)
    (t : Task) :
    has_blocking_dependencies { s with subtasks := subs } t
      = has_blocking_dependencies s t := rfl

/-- The Status Deriver leaves a done task alone. -/
lemma enforce_blocking_status_done (s : Store) (t : Task) (h : t.status = "done") :
    enforce_blocking_status s t = t := by
  unfold enforce_blocking_status
  rw [if_neg (fun hc => hc.1 h), if_neg (fun hc => by rw [h] at hc; exact absurd hc.1 (by decide))]

def c8d : PDate := ⟨2025, 8, 25⟩

/-- Task 1 is in progress with one done and one undone subtask and has
never been started (`started_at = none`). -/
def c8s : Store :=
  ⟨[⟨1, "t", "T", "", "in_progress", 2, 0, none, none, none, none, 500⟩],
   [⟨1, 1, "a", true⟩, ⟨2, 1, "b", false⟩], [], 2, 3, 1⟩

def c8res : Task :=
  ⟨1, "t", "T", "", "done", 2, 0, none, none, none, some c8d, 1000⟩

/-- C8 counterexample: deleting subtask 2 brings task 1's progress to
100.0 with no blocking dependencies; the handler sets status to done and
`completed_at` to today, but — against the claim — leaves the unset
`started_at` as `none` instead of setting it to today. -/
theorem C8_counterexample :
    (api_delete_subtask c8s 2 c8d).2 = Except.ok (some c8res) ∧
      c8res.status = "done" ∧ c8res.completed_at = some c8d ∧
      c8res.started_at = none ∧ c8res.started_at ≠ some c8d := by
  refine ⟨by decide, rfl, rfl, rfl, by decide⟩

/-- C8 (amended): when a subtask deletion brings the parent's progress
to 100.0 (1000 tenths) and the parent has no blocking dependencies, the
delete handler sets the parent's status to done and sets `completed_at`
to today when it is unset — but it leaves `started_at` (and every other
field) unchanged. -/
theorem C8_delete_subtask_completes (s : Store) (stid : Nat) (today : PDate)
    (st : Subtask) (t : Task)
    (hst : s.subtasks.find? (fun x => x.id == stid) = some st)
    (ht : getTask s st.task_id = some t)
    (hnb : has_blocking_dependencies s t = false)
    (hp : compute_task_progress
        { s with subtasks := s.subtasks.filter (fun x => x.id != stid) } t = 1000) :
    api_delete_subtask s stid today
      = (setTask { s with subtasks := s.subtasks.filter (fun x => x.id != stid) }
          { t with
            progress := 1000,
            status := "done",
            completed_at := orToday t.completed_at today },
         Except.ok (some { t with
            progress := 1000,
            status := "done",
            completed_at := orToday t.completed_at today })) := by
  unfold api_delete_subtask
  rw [hst]
  simp only []
  rw [ht]
  simp only [hp, hnb, has_blocking_dependencies_subtasks_irrel,
    has_blocking_dependencies_congr _ { t with progress := (1000 : ℤ) } t rfl]
  rw [if_neg (by simp : ¬ (false = true))]
  rw [if_pos (by constructor <;> trivial)]
  rw [enforce_blocking_status_done _ _ rfl]

theorem C8_delete_subtask_completes_witness :
    api_delete_subtask c8s 2 c8d
      = (setTask { c8s with subtasks := [⟨1, 1, "a", true⟩] } c8res,
         Except.ok (some c8res)) :=
  C8_delete_subtask_completes c8s 2 c8d ⟨2, 1, "b", false⟩
    ⟨1, "t", "T", "", "in_progress", 2, 0, none, none, none, none, 500⟩
    rfl rfl rfl (by decide)

def c1d : PDate := ⟨2025, 8, 25⟩

/-- Create A and B, mark B done, make A depend on B (A stays unblocked),
then add a fresh subtask to B: the create-subtask handler demotes B from
done to in_progress but runs no cascade, leaving A todo although A now
has an unmet dependency. -/
def c1ops : List Op :=
  [ .createTask "A" "" "" 2 0,
    .createTask "B" "" "" 2 0,
    .updateStatus 2 "done" c1d,
    .addDependency 1 2,
    .createSubtask 2 "x" c1d ]

def c1store : Store := runOps emptyStore c1ops

/-- C1 counterexample: `c1store` is reachable from the empty store by
public mutations, yet task 1 has status `todo` (not `blocked`) while it
has a dependency edge whose target (task 2, `in_progress`) is not done
and task 1 itself is not done — the claimed biconditional fails. -/
theorem C1_counterexample :
    reachable c1store ∧
      ((getTask c1store 1).map (fun t =>
          decide (t.status = "blocked")
            == (has_blocking_dependencies c1store t && decide (t.status ≠ "done"))))
        = some false :=
  ⟨⟨c1ops, rfl⟩, by decide⟩

/-- C1 (amended): the biconditional — status is blocked iff some
dependency target is not done and the task itself is not done — holds
for a task immediately after the Status Deriver (`enforce_blocking_status`)
runs on it.  It is not an invariant of all reachable store states,
because subtask creation/deletion and the single-hop cascade can change
a task's done-ness without re-deriving its dependents' statuses. -/
theorem C1_blocked_iff_after_enforce (s : Store) (t : Task) :
    (enforce_blocking_status s t).status = "blocked"
      ↔ has_blocking_dependencies s t = true
          ∧ (enforce_blocking_status s t).status ≠ "done" := by
  by_cases hbl : has_blocking_dependencies s t = true
  · by_cases hnd : t.status = "done"
    · simp [enforce_blocking_status, hbl, hnd]
    · simp [enforce_blocking_status, hbl, hnd]
  · have hbl9 : has_blocking_dependencies s t = false := by
      cases hv : has_blocking_dependencies s t
      · rfl
      · exact absurd hv hbl
    by_cases hb2 : t.status = "blocked"
    · simp [enforce_blocking_status, hbl9, hb2]
      split_ifs <;> simp
    · simp [enforce_blocking_status, hbl9, hb2]

/-! ### Dependency-table preservation of the mutation handlers -/

lemma recomputeStep_deps (acc : Store) (did : Nat) :
    (recomputeStep acc did).deps = acc.deps := by
  unfold recomputeStep
  split <;> rfl

lemma foldl_recomputeStep_deps (L : List Nat) :
    ∀ acc : Store, (L.foldl recomputeStep acc).deps = acc.deps := by
  induction L with
  | nil => intro acc; rfl
  | cons x L ih =>
    intro acc
    simp only [List.foldl_cons]
    rw [ih, recomputeStep_deps]

lemma api_create_task_deps (s : Store) (a b c : String) (p w : Int) :
    (api_create_task s a b c p w).1.deps = s.deps := by
  simp only [api_create_task]
  split_ifs <;> rfl

lemma api_update_task_status_deps (s : Store) (tid : Nat) (ns : String)
    (td : PDate) :
    (api_update_task_status s tid ns td).1.deps = s.deps := by
  unfold api_update_task_status
  split
  · rfl
  · split_ifs <;> first
      | rfl
      | (rw [update_dependents_status_deps]; rfl)

lemma api_edit_task_deps (s : Store) (tid : Nat) (a b : Option String)
    (p w : Option Int) :
    (api_edit_task s tid a b p w).1.deps = s.deps := by
  unfold api_edit_task
  split <;> rfl

lemma api_delete_task_deps_sublist (s : Store) (tid : Nat) :
    (api_delete_task s tid).1.deps.Sublist s.deps := by
  unfold api_delete_task
  split
  · exact List.Sublist.refl _
  · simp only [foldl_recomputeStep_deps]
    exact (List.filter_sublist _).trans (List.filter_sublist _)

lemma api_create_subtask_deps (s : Store) (tid : Nat) (ti : String)
    (td : PDate) :
    (api_create_subtask s tid ti td).1.deps = s.deps := by
  simp only [api_create_subtask]
  split_ifs
  · rfl
  · split <;> rfl

lemma api_toggle_subtask_deps (s : Store) (sid : Nat) (td : PDate) :
    (api_toggle_subtask s sid td).1.deps = s.deps := by
  unfold api_toggle_subtask
  split
  · rfl
  · split
    · rfl
    · split_ifs <;> first
        | rfl
        | (rw [update_dependents_status_deps]; rfl)

lemma api_delete_subtask_deps (s : Store) (sid : Nat) (td : PDate) :
    (api_delete_subtask s sid td).1.deps = s.deps := by
  simp only [api_delete_subtask]
  split
  · rfl
  · split
    · split_ifs <;> rfl
    · rfl

lemma api_add_dependency_deps (s : Store) (tid did : Nat) :
    (api_add_dependency s tid did).1.deps = s.deps ∨
      (s.deps.find? (fun d => d.task_id == tid && d.depends_on_id == did) = none ∧
        (api_add_dependency s tid did).1.deps
          = s.deps ++ [⟨s.nextDepId, tid, did⟩]) := by
  simp only [api_add_dependency]
  split_ifs with h
  · left
    rfl
  · split
    · left
      rfl
    · rename_i hfind
      split
      · right
        exact ⟨hfind, rfl⟩
      · right
        exact ⟨hfind, rfl⟩

lemma api_delete_dependency_deps_sublist (s : Store) (did : Nat) :
    (api_delete_dependency s did).1.deps.Sublist s.deps := by
  simp only [api_delete_dependency]
  split
  · exact List.Sublist.refl _
  · split <;> exact List.filter_sublist _

/-- The (task_id, depends_on_id) pairs of the dependency table. -/
def depPairs (s : Store) : List (Nat × Nat) :=
  s.deps.map (fun d => (d.task_id, d.depends_on_id))

lemma depPairs_nodup_of_deps_eq {s r : Store} (h : r.deps = s.deps)
    (hn : (depPairs s).Nodup) : (depPairs r).Nodup := by
  unfold depPairs
  rw [h]
  exact hn

lemma depPairs_nodup_of_sublist {s r : Store} (h : r.deps.Sublist s.deps)
    (hn : (depPairs s).Nodup) : (depPairs r).Nodup :=
  List.Nodup.sublist (h.map _) hn

/-- Every public mutation preserves at-most-one-edge-per-pair. -/
lemma applyOp_depPairs_nodup (s : Store) (op : Op)
    (h : (depPairs s).Nodup) : (depPairs (applyOp s op)).Nodup := by
  cases op with
  | createTask a b c p w =>
    exact depPairs_nodup_of_deps_eq (api_create_task_deps s a b c p w) h
  | updateStatus tid ns td =>
    exact depPairs_nodup_of_deps_eq (api_update_task_status_deps s tid ns td) h
  | editTask tid a b p w =>
    exact depPairs_nodup_of_deps_eq (api_edit_task_deps s tid a b p w) h
  | deleteTask tid =>
    exact depPairs_nodup_of_sublist (api_delete_task_deps_sublist s tid) h
  | createSubtask tid ti td =>
    exact depPairs_nodup_of_deps_eq (api_create_subtask_deps s tid ti td) h
  | toggleSubtask sid td =>
    exact depPairs_nodup_of_deps_eq (api_toggle_subtask_deps s sid td) h
  | deleteSubtask sid td =>
    exact depPairs_nodup_of_deps_eq (api_delete_subtask_deps s sid td) h
  | addDependency tid did =>
    rcases api_add_dependency_deps s tid did with heq | ⟨hfind, heq⟩
    · exact depPairs_nodup_of_deps_eq heq h
    · show ((applyOp s (.addDependency tid did)).deps.map
        (fun d => (d.task_id, d.depends_on_id))).Nodup
      rw [show (applyOp s (.addDependency tid did)).deps
          = (api_add_dependency s tid did).1.deps from rfl, heq, List.map_append]
      rw [List.nodup_append]
      refine ⟨h, List.nodup_singleton _, ?_⟩
      intro p hp hq
      simp only [List.map_cons, List.map_nil, List.mem_singleton] at hq
      subst hq
      obtain ⟨d, hdmem, hdp⟩ := List.mem_map.mp hp
      have hdp2 : d.task_id = tid ∧ d.depends_on_id = did := by
        refine ⟨congrArg Prod.fst hdp, congrArg Prod.snd hdp⟩
      have := List.find?_eq_none.mp hfind d hdmem
      simp [hdp2.1, hdp2.2] at this
  | deleteDependency did =>
    exact depPairs_nodup_of_sublist (api_delete_dependency_deps_sublist s did) h

lemma runOps_depPairs_nodup (ops : List Op) :
    ∀ s : Store, (depPairs s).Nodup → (depPairs (runOps s ops)).Nodup := by
  induction ops with
  | nil => intro s h; exact h
  | cons op ops ih =>
    intro s h
    exact ih (applyOp s op) (applyOp_depPairs_nodup s op h)

/-- C6: adding a dependency edge is idempotent — when an edge with the
requested (task_id, depends_on_id) pair exists and the arguments pass
validation, the handler creates nothing, changes nothing, and returns
the existing edge — and consequently every reachable store carries at
most one edge per (task_id, depends_on_id) pair. -/
theorem C6_add_dependency_idempotent :
    (∀ (s : Store) (tid did : Nat) (e : Dependency),
        s.deps.find? (fun d => d.task_id == tid && d.depends_on_id == did)
          = some e →
        ¬(tid = 0 ∨ did = 0 ∨ tid = did) →
        api_add_dependency s tid did = (s, .ok e)) ∧
    (∀ s : Store, reachable s → (depPairs s).Nodup) := by
  constructor
  · intro s tid did e hfind hval
    unfold api_add_dependency
    rw [if_neg hval, hfind]
  · rintro s ⟨ops, hops⟩
    rw [← hops]
    exact runOps_depPairs_nodup ops emptyStore List.nodup_nil

def w6e : Dependency := ⟨1, 1, 2⟩

def w6store : Store :=
  ⟨[⟨1, "a", "A", "", "todo", 2, 0, none, none, none, none, 0⟩,
    ⟨2, "b", "B", "", "todo", 2, 0, none, none, none, none, 0⟩],
   [], [w6e], 3, 1, 2⟩

def w6ops : List Op :=
  [ .createTask "A" "" "" 2 0,
    .createTask "B" "" "" 2 0,
    .addDependency 1 2,
    .addDependency 1 2 ]

theorem C6_add_dependency_idempotent_witness :
    api_add_dependency w6store 1 2 = (w6store, .ok w6e) ∧
      (depPairs (runOps emptyStore w6ops)).Nodup :=
  ⟨C6_add_dependency_idempotent.1 w6store 1 2 w6e rfl (by decide),
   C6_add_dependency_idempotent.2 _ ⟨w6ops, rfl⟩⟩

/-- Only task 1 exists; task 2 does not. -/
def w3store : Store :=
  ⟨[⟨1, "a", "A", "", "todo", 2, 0, none, none, none, none, 0⟩],
   [], [], 2, 1, 1⟩

/-- C3 counterexample: adding a dependency edge whose `task_id` (2)
matches no task fails with NotFound, yet the edge has been committed:
the store visibly changed and now carries the dangling edge. -/
theorem C3_counterexample :
    (api_add_dependency w3store 2 1).2 = Except.error ApiError.notFound ∧
      (api_add_dependency w3store 2 1).1 ≠ w3store ∧
      (api_add_dependency w3store 2 1).1.deps = [⟨1, 2, 1⟩] := by
  refine ⟨by decide, by decide, by decide⟩

lemma api_create_task_error_frame (s : Store) (a b c : String) (p w : Int)
    (e : ApiError) (h : (api_create_task s a b c p w).2 = .error e) :
    (api_create_task s a b c p w).1 = s := by
  revert h
  simp only [api_create_task]
  split_ifs <;> intro h <;> first
    | rfl
    | exact absurd h (by simp)

lemma api_update_task_status_error_frame (s : Store) (tid : Nat) (ns : String)
    (td : PDate) (e : ApiError)
    (h : (api_update_task_status s tid ns td).2 = .error e) :
    (api_update_task_status s tid ns td).1 = s := by
  revert h
  simp only [api_update_task_status]
  split
  · intro _
    rfl
  · split_ifs <;> intro h <;> first
      | rfl
      | exact absurd h (by simp)

lemma api_edit_task_error_frame (s : Store) (tid : Nat) (a b : Option String)
    (p w : Option Int) (e : ApiError)
    (h : (api_edit_task s tid a b p w).2 = .error e) :
    (api_edit_task s tid a b p w).1 = s := by
  revert h
  simp only [api_edit_task]
  split <;> intro h
  · rfl
  · exact absurd h (by simp)

lemma api_delete_task_error_frame (s : Store) (tid : Nat) (e : ApiError)
    (h : (api_delete_task s tid).2 = .error e) :
    (api_delete_task s tid).1 = s := by
  revert h
  simp only [api_delete_task]
  split <;> intro h
  · rfl
  · exact absurd h (by simp)

lemma api_create_subtask_error_frame (s : Store) (tid : Nat) (ti : String)
    (td : PDate) (e : ApiError)
    (h : (api_create_subtask s tid ti td).2 = .error e) :
    (api_create_subtask s tid ti td).1 = s := by
  revert h
  simp only [api_create_subtask]
  split_ifs <;> intro h
  · rfl
  · revert h
    split <;> intro h
    · rfl
    · exact absurd h (by simp)

lemma api_toggle_subtask_error_frame (s : Store) (sid : Nat) (td : PDate)
    (e : ApiError) (h : (api_toggle_subtask s sid td).2 = .error e) :
    (api_toggle_subtask s sid td).1 = s := by
  revert h
  simp only [api_toggle_subtask]
  split
  · intro _
    rfl
  · split
    · intro _
      rfl
    · split_ifs <;> intro h <;> first
        | rfl
        | exact absurd h (by simp)

lemma api_delete_subtask_error_frame (s : Store) (sid : Nat) (td : PDate)
    (e : ApiError) (h : (api_delete_subtask s sid td).2 = .error e) :
    (api_delete_subtask s sid td).1 = s := by
  revert h
  simp only [api_delete_subtask]
  split
  · intro _
    rfl
  · split
    · split_ifs <;> intro h <;> first
        | rfl
        | exact absurd h (by simp)
    · intro h
      exact absurd h (by simp)

lemma api_delete_dependency_error_frame (s : Store) (did : Nat) (e : ApiError)
    (h : (api_delete_dependency s did).2 = .error e)
    (hne : e ≠ ApiError.serverError) :
    (api_delete_dependency s did).1 = s := by
  revert h
  simp only [api_delete_dependency]
  split
  · intro _
    rfl
  · split <;> intro h
    · injection h with h2
      exact absurd h2.symm hne
    · exact absurd h (by simp)

lemma api_add_dependency_error_frame (s : Store) (tid did : Nat) (e : ApiError)
    (h : (api_add_dependency s tid did).2 = .error e) :
    (api_add_dependency s tid did).1 = s ∨
      (e = ApiError.notFound ∧
        (api_add_dependency s tid did).1
          = { s with deps := s.deps ++ [⟨s.nextDepId, tid, did⟩],
                     nextDepId := s.nextDepId + 1 }) := by
  revert h
  simp only [api_add_dependency]
  split_ifs <;> intro h
  · left
    rfl
  · revert h
    split <;> intro h
    · exact absurd h (by simp)
    · revert h
      split <;> intro h
      · right
        injection h with h2
        exact ⟨h2.symm, rfl⟩
      · exact absurd h (by simp)

/-- C3 (amended): every mutating API operation that fails with a
ValidationError, NotFound, or BlockedOperation leaves the entity store
unchanged — with one exception, faithful to the source: adding a
dependency edge with validly-shaped ids and no duplicate commits the new
edge BEFORE looking up `task_id`, so when `task_id` matches no task the
call fails NotFound with the edge already persisted.  (Deleting an edge
whose `task_id` side is dangling fails with an unhandled server error —
not one of the three listed kinds — also after its delete committed.) -/
theorem C3_failures_leave_store_unchanged :
    (∀ (s : Store) (a b c : String) (p w : Int) (e : ApiError),
        (api_create_task s a b c p w).2 = .error e →
        (api_create_task s a b c p w).1 = s) ∧
    (∀ (s : Store) (tid : Nat) (ns : String) (td : PDate) (e : ApiError),
        (api_update_task_status s tid ns td).2 = .error e →
        (api_update_task_status s tid ns td).1 = s) ∧
    (∀ (s : Store) (tid : Nat) (a b : Option String) (p w : Option Int)
        (e : ApiError),
        (api_edit_task s tid a b p w).2 = .error e →
        (api_edit_task s tid a b p w).1 = s) ∧
    (∀ (s : Store) (tid : Nat) (e : ApiError),
        (api_delete_task s tid).2 = .error e → (api_delete_task s tid).1 = s) ∧
    (∀ (s : Store) (tid : Nat) (ti : String) (td : PDate) (e : ApiError),
        (api_create_subtask s tid ti td).2 = .error e →
        (api_create_subtask s tid ti td).1 = s) ∧
    (∀ (s : Store) (sid : Nat) (td : PDate) (e : ApiError),
        (api_toggle_subtask s sid td).2 = .error e →
        (api_toggle_subtask s sid td).1 = s) ∧
    (∀ (s : Store) (sid : Nat) (td : PDate) (e : ApiError),
        (api_delete_subtask s sid td).2 = .error e →
        (api_delete_subtask s sid td).1 = s) ∧
    (∀ (s : Store) (did : Nat) (e : ApiError),
        (api_delete_dependency s did).2 = .error e →
        e ≠ ApiError.serverError → (api_delete_dependency s did).1 = s) ∧
    (∀ (s : Store) (tid did : Nat) (e : ApiError),
        (api_add_dependency s tid did).2 = .error e →
        (api_add_dependency s tid did).1 = s ∨
          (e = ApiError.notFound ∧
            (api_add_dependency s tid did).1
              = { s with deps := s.deps ++ [⟨s.nextDepId, tid, did⟩],
                         nextDepId := s.nextDepId + 1 })) :=
  ⟨api_create_task_error_frame, api_update_task_status_error_frame,
   api_edit_task_error_frame, api_delete_task_error_frame,
   api_create_subtask_error_frame, api_toggle_subtask_error_frame,
   api_delete_subtask_error_frame, api_delete_dependency_error_frame,
   api_add_dependency_error_frame⟩

theorem C3_failures_leave_store_unchanged_witness :
    (api_update_task_status emptyStore 1 "done" ⟨2025, 8, 25⟩).1 = emptyStore ∧
      ((api_add_dependency w3store 2 1).1 = w3store ∨
        (ApiError.notFound = ApiError.notFound ∧
          (api_add_dependency w3store 2 1).1
            = { w3store with deps := w3store.deps ++ [⟨w3store.nextDepId, 2, 1⟩],
                             nextDepId := w3store.nextDepId + 1 })) :=
  ⟨C3_failures_leave_store_unchanged.2.1 emptyStore 1 "done" ⟨2025, 8, 25⟩
      ApiError.notFound rfl,
   C3_failures_leave_store_unchanged.2.2.2.2.2.2.2.2 w3store 2 1
      ApiError.notFound rfl⟩

end TaskApp
